import Mathlib

/-!
Verification of the village-population dashboard's synthesis core against its
specification.  The development shallowly embeds: the marriage-mapping function
(`pop_utils.py`), the configuration file check and the base-data loader
(`config.py`, `database.py`), the population-synthesis query and the generation
ledger (`database.py`), and the UI-level village-count validation (`ui.py`).

Python integers are modelled as `Int` (or `Nat` where the source value is a
non-negative index); for the non-negative operands reached past the input
guards, Python `//` and `%` agree with Lean's `Int` `/` and `%` (Euclidean
division equals floor division for positive divisors).  `raise` is modelled as
`Except.error`.
-/

/-- `get_marriage_to_village_id` from `pop_utils.py`: computes the
MARRIAGE_TO_VILLAGE_ID from VILLAGE_ID and COUNTER.  The two `ValueError`
guards become `Except.error` with the source's messages. -/
def get_marriage_to_village_id (village_id counter : Int) : Except String Int :=
  if ¬ (village_id ≥ 1) then .error "VILLAGE_ID must be 1 or more."
  else if ¬ (counter ≥ 1) then .error "COUNTER must be 1 or more."
  else
    -- Reduce counter to range 1-196 using modulo
    let counter := (counter - 1) % 196 + 1
    -- Determine the block and base add
    let block := (counter - 1) / 28
    let base_add := 1 + 4 * block
    -- Determine position within the block
    let pos := counter - 28 * block
    -- Determine the add value based on position
    let add := if pos % 4 = 1 ∨ pos % 4 = 2 then base_add else base_add + 2
    -- Determine the base and mod based on village_id range
    let base := ((village_id - 1) / 28) * 28
    -- Calculate the result using modular arithmetic
    let local_id := village_id - base
    .ok ((local_id + add - 1) % 28 + 1 + base)

/-- The marriage mapping as spelled out by the specification's seven
integer-arithmetic steps (§4.2).  This definition follows the spec's own words,
to be compared with the source function `get_marriage_to_village_id`. -/
def map_marriage_spec (village_id counter : Int) : Int :=
  let c := (counter - 1) % 196 + 1
  let block := (c - 1) / 28
  let base_add := 1 + 4 * block
  let pos := c - 28 * block
  let add := if pos % 4 = 1 ∨ pos % 4 = 2 then base_add else base_add + 2
  let super_base := ((village_id - 1) / 28) * 28
  let local_id := village_id - super_base
  (local_id + add - 1) % 28 + 1 + super_base

/-- `BASE_EXCEL` from `config.py`: the canonical Excel source file name. -/
def BASE_EXCEL : String := "FINAL_POPULATION.xlsx"

/-- `BASE_PARQUET` from `config.py`: the parquet cache artifact name. -/
def BASE_PARQUET : String := "base_population.parquet"

/-- `MIN_VILLAGES` from `config.py`. -/
def MIN_VILLAGES : Int := 28

/-- `MAX_VILLAGES` from `config.py`. -/
def MAX_VILLAGES : Int := 280

/-- The module-level check in `config.py`: importing the configuration raises
`FileNotFoundError` when the canonical Excel source is absent.  The file
system is modelled as the list of existing file names. -/
def config_check (fs : List String) : Except String Unit :=
  if ¬ (BASE_EXCEL ∈ fs) then
    .error ("Required file " ++ BASE_EXCEL ++ " not found!")
  else .ok ()

/-- Which path of `load_base_data` (`database.py`) produced the returned data:
read from the existing parquet cache, or converted from the Excel source
(writing the cache as a side effect). -/
inductive LoadSource where
  | fromCache : LoadSource
  | convertedFromExcel : LoadSource
deriving Repr, DecidableEq

/-- Control flow of `load_base_data` in `database.py`: if the parquet cache is
missing, the Excel source must exist (else `FileNotFoundError`) and is
converted once; otherwise the cache is read directly, without consulting the
Excel file at all. -/
def load_base_data (fs : List String) : Except String LoadSource :=
  if ¬ (BASE_PARQUET ∈ fs) then
    if ¬ (BASE_EXCEL ∈ fs) then .error ("Missing base file: " ++ BASE_EXCEL)
    else .ok .convertedFromExcel
  else .ok .fromCache

/-- A normal run of the program: `main.py` (through `database.py` and `ui.py`)
imports `config.py` first, running its module-level file check; only when that
succeeds can `load_base_data` be reached. -/
def program_startup (fs : List String) : Except String LoadSource := do
  config_check fs
  load_base_data fs

/-- One row of the base dataset as consumed by the synthesis query in
`database.py`: the columns of `base_df` after the loader has added
`BIRTH_DATE_SERIAL` and `Date_of_Birth` (both null when the raw birth date is
missing or unparseable). -/
structure BaseRecord where
  COUNTER : Int
  FAMILY_ID : Int
  PERSON_ID : Int
  BIRTH_DATE_SERIAL : Option Int
  Date_of_Birth : Option String
deriving Repr, DecidableEq

/-- Decidable equality for stored `Except` values (needed to compare rows). -/
instance {ε α : Type} [DecidableEq ε] [DecidableEq α] : DecidableEq (Except ε α) := fun a b =>
  match a, b with
  | .ok x, .ok y =>
      if h : x = y then .isTrue (congrArg Except.ok h)
      else .isFalse (fun hc => h (Except.ok.inj hc))
  | .error x, .error y =>
      if h : x = y then .isTrue (congrArg Except.error h)
      else .isFalse (fun hc => h (Except.error.inj hc))
  | .ok _, .error _ => .isFalse (fun hc => Except.noConfusion hc)
  | .error _, .ok _ => .isFalse (fun hc => Except.noConfusion hc)

/-- One row of the generated `population` table (`database.py`).
`MARRIED_TO_VILLAGE_ID` holds the result of the `get_marriage_id` UDF, which
can fail for a non-positive counter, so the `Except` value is kept. -/
structure PopRecord where
  SERIAL_NO : Nat
  COUNTER : Int
  FAMILY_ID : Int
  PERSON_ID : Int
  BIRTH_DATE : Option Int
  VILLAGE_ID : Nat
  GENDER : String
  Date_of_Birth : Option String
  MARRIED_TO_VILLAGE_ID : Except String Int
deriving Repr, DecidableEq

/-- One emitted row of the INSERT-SELECT in `generate_database`
(`database.py`), before the `SERIAL_NO` sequence value is attached: village id
`vid`, 0-based base-row index `idx` (the `row_number() - 1` column), base row
`b`.  The GENDER CASE expression yields MALE iff `(idx % 2 = 0) = (vid % 2 = 1)`. -/
def emitRow (vid idx : Nat) (b : BaseRecord) : PopRecord :=
  { SERIAL_NO := 0
    COUNTER := b.COUNTER
    FAMILY_ID := b.FAMILY_ID
    PERSON_ID := b.PERSON_ID
    BIRTH_DATE := b.BIRTH_DATE_SERIAL
    VILLAGE_ID := vid
    GENDER := if (idx % 2 == 0) == (vid % 2 == 1) then "MALE" else "FEMALE"
    Date_of_Birth := b.Date_of_Birth
    MARRIED_TO_VILLAGE_ID := get_marriage_to_village_id (vid : Int) b.COUNTER }

/-- The rows produced by the SELECT of the synthesis query, in its
`ORDER BY v.vid, b.idx` order: villages `1 .. num_villages` (the SQL
`range(1, num_villages + 1)`), each crossed with the base rows tagged by their
0-based row index. -/
def emittedRows (base : List BaseRecord) (num_villages : Nat) : List PopRecord :=
  ((List.range num_villages).map (· + 1)).flatMap
    (fun vid => base.enum.map (fun p => emitRow vid p.1 p.2))

/-- The full `population` table written by `generate_database`: the emitted
rows with `SERIAL_NO` assigned from the `seq` sequence (starting at 1) in
insertion order. -/
def populationRows (base : List BaseRecord) (num_villages : Nat) : List PopRecord :=
  (emittedRows base num_villages).enum.map
    (fun p => { p.2 with SERIAL_NO := p.1 + 1 })

/-- One entry of the per-user generation history (`user_history.json`), as
appended by `generate_database`; this is the generation ledger. -/
structure LedgerEntry where
  username : String
  db_id : String
  db_path : String
  num_villages : Nat
  created_at : String
deriving Repr, DecidableEq

/-- The externally visible state a synthesis run touches: the generated
database files (each holding one `population` table) and the generation
ledger. -/
structure SysState where
  tables : List (String × List PopRecord)
  ledger : List LedgerEntry
deriving Repr, DecidableEq

/-- Errors surfaced by a generation request. -/
inductive GenError where
  | invalidVillageCount : GenError
  | storageError : GenError
deriving Repr, DecidableEq

/-- `generate_database` from `database.py`, as a state transition.  `db_id`
and `created_at` stand for the fresh UUID fragment and the timestamp;
`writeOk` says whether the underlying DuckDB bulk write succeeds.  On success
the new table is materialized and a ledger (history) entry is appended.  The
source has no try/finally, so when the write raises, the exception propagates
after the table file has already been created: the file stays on disk (with
the rolled-back, empty table) and none of the post-write steps (history
append, logging) run. -/
def generate_database (username db_id created_at : String) (writeOk : Bool)
    (base : List BaseRecord) (num_villages : Nat) (st : SysState) :
    Except GenError Unit × SysState :=
  let db_path := "villages_" ++ username ++ "_" ++ db_id ++ ".db"
  -- Remove old file if exists
  let tables := st.tables.filter (fun t => t.1 ≠ db_path)
  if writeOk then
    (.ok (),
      { tables := tables ++ [(db_path, populationRows base num_villages)]
        ledger := st.ledger ++
          [{ username := username, db_id := db_id, db_path := db_path
             num_villages := num_villages, created_at := created_at }] })
  else
    (.error .storageError,
      { tables := tables ++ [(db_path, [])], ledger := st.ledger })

/-- The Generate-Database click handler in `ui.py`: the `number_input` widget
constrains the requested count to `[MIN_VILLAGES, MAX_VILLAGES]`, and the
handler itself rejects counts that are not multiples of 28, in both cases
before `generate_database` is ever called. -/
def generate_click (num : Int) (username db_id created_at : String)
    (writeOk : Bool) (base : List BaseRecord) (st : SysState) :
    Except GenError Unit × SysState :=
  if num < MIN_VILLAGES ∨ MAX_VILLAGES < num then (.error .invalidVillageCount, st)
  else if num % 28 ≠ 0 then (.error .invalidVillageCount, st)
  else generate_database username db_id created_at writeOk base num.toNat st

/-- A small concrete base dataset used by witnesses. -/
def demoBase : List BaseRecord :=
  [{ COUNTER := 1, FAMILY_ID := 10, PERSON_ID := 100,
     BIRTH_DATE_SERIAL := some 36526, Date_of_Birth := some "Saturday, January 01, 2000" },
   { COUNTER := 2, FAMILY_ID := 10, PERSON_ID := 101,
     BIRTH_DATE_SERIAL := none, Date_of_Birth := none }]

/-- C1: for every `village_id ≥ 1` and `counter ≥ 1`, the marriage mapping
succeeds and its result lies in the same 28-village super-block as
`village_id`: `(result - 1) / 28 = (village_id - 1) / 28`.  Marriages never
cross super-block boundaries. -/
theorem marriage_same_super_block (village_id counter : Int)
    (hv : 1 ≤ village_id) (hc : 1 ≤ counter) :
    ∃ result, get_marriage_to_village_id village_id counter = .ok result ∧
      (result - 1) / 28 = (village_id - 1) / 28 := by
  unfold get_marriage_to_village_id
  rw [if_neg (by omega), if_neg (by omega)]
  dsimp only
  split
  · exact ⟨_, rfl, by omega⟩
  · exact ⟨_, rfl, by omega⟩

/-- Witness for C1 at `village_id = 5`, `counter = 3`. -/
theorem marriage_same_super_block_witness :
    (1 : Int) ≤ 5 ∧ ∃ result, get_marriage_to_village_id 5 3 = .ok result ∧
      (result - 1) / 28 = (5 - 1 : Int) / 28 :=
  ⟨by decide, marriage_same_super_block 5 3 (by decide) (by decide)⟩

/-- C2: for every `village_id ≥ 1` and `counter ≥ 1`, the source function
returns exactly the value computed by the specification's seven
integer-arithmetic steps, and in particular `map_marriage 1 1 = 2`. -/
theorem marriage_matches_spec_steps :
    (∀ village_id counter : Int, 1 ≤ village_id → 1 ≤ counter →
      get_marriage_to_village_id village_id counter =
        .ok (map_marriage_spec village_id counter)) ∧
    get_marriage_to_village_id 1 1 = .ok 2 := by
  constructor
  · intro v c hv hc
    unfold get_marriage_to_village_id map_marriage_spec
    rw [if_neg (by omega), if_neg (by omega)]
  · rfl

/-- Witness for C2 at `village_id = 7`, `counter = 9`. -/
theorem marriage_matches_spec_steps_witness :
    (1 : Int) ≤ 7 ∧
      get_marriage_to_village_id 7 9 = .ok (map_marriage_spec 7 9) :=
  ⟨by decide, marriage_matches_spec_steps.1 7 9 (by decide) (by decide)⟩

/-- C6: the marriage mapping depends on the counter only through its residue
modulo 196: two valid counters congruent mod 196 give the same result. -/
theorem marriage_counter_mod_196 (v c1 c2 : Int) (hv : 1 ≤ v)
    (h1 : 1 ≤ c1) (h2 : 1 ≤ c2) (hmod : c1 % 196 = c2 % 196) :
    get_marriage_to_village_id v c1 = get_marriage_to_village_id v c2 := by
  unfold get_marriage_to_village_id
  rw [if_neg (by omega), if_neg (by omega), if_neg (by omega), if_neg (by omega)]
  have h : (c1 - 1) % 196 = (c2 - 1) % 196 := by omega
  rw [h]

/-- Witness for C6 at `v = 3`, `c1 = 5`, `c2 = 201` (201 = 5 + 196). -/
theorem marriage_counter_mod_196_witness :
    (5 : Int) % 196 = (201 : Int) % 196 ∧
      get_marriage_to_village_id 3 5 = get_marriage_to_village_id 3 201 :=
  ⟨by decide, marriage_counter_mod_196 3 5 201 (by decide) (by decide) (by decide) (by decide)⟩

/-- C7: the marriage mapping fails (with the `ValueError` guard) exactly when
`village_id < 1` or `counter < 1`, and succeeds (is total, returning a value)
exactly when `village_id ≥ 1` and `counter ≥ 1`; inputs are never clamped into
range. -/
theorem marriage_error_iff (village_id counter : Int) :
    ((∃ msg, get_marriage_to_village_id village_id counter = .error msg) ↔
      village_id < 1 ∨ counter < 1) ∧
    ((∃ result, get_marriage_to_village_id village_id counter = .ok result) ↔
      1 ≤ village_id ∧ 1 ≤ counter) := by
  unfold get_marriage_to_village_id
  by_cases hv : village_id ≥ 1 <;> by_cases hc : counter ≥ 1 <;>
    simp [hv, hc] <;> omega

/-- C9: for every `village_id ≥ 1` and `counter ≥ 1`, the marriage mapping
succeeds and its result differs from `village_id` itself: no person is married
into their own village. -/
theorem marriage_never_self (village_id counter : Int)
    (hv : 1 ≤ village_id) (hc : 1 ≤ counter) :
    ∃ result, get_marriage_to_village_id village_id counter = .ok result ∧
      result ≠ village_id := by
  unfold get_marriage_to_village_id
  rw [if_neg (by omega), if_neg (by omega)]
  dsimp only
  split
  · exact ⟨_, rfl, by omega⟩
  · exact ⟨_, rfl, by omega⟩

/-- Witness for C9 at `village_id = 1`, `counter = 1`. -/
theorem marriage_never_self_witness :
    (1 : Int) ≤ 1 ∧ ∃ result, get_marriage_to_village_id 1 1 = .ok result ∧
      result ≠ 1 :=
  ⟨by decide, marriage_never_self 1 1 (by decide) (by decide)⟩

/-- C10: the program requires the canonical Excel source at
configuration-load time and fails when it is absent, even when the parquet
cache exists; the loader on its own would serve the cache without the source
(its cache-only path), but that fallback is unreachable in a normal run. -/
theorem excel_required_despite_cache :
    (∀ fs : List String, BASE_EXCEL ∉ fs →
      ∃ msg, program_startup fs = .error msg) ∧
    (∀ fs : List String, BASE_EXCEL ∉ fs → BASE_PARQUET ∈ fs →
      load_base_data fs = .ok .fromCache ∧
        ∃ msg, program_startup fs = .error msg) := by
  have key : ∀ fs : List String, BASE_EXCEL ∉ fs →
      ∃ msg, program_startup fs = .error msg := by
    intro fs hex
    refine ⟨"Required file " ++ BASE_EXCEL ++ " not found!", ?_⟩
    unfold program_startup config_check
    rw [if_pos hex]
    rfl
  refine ⟨key, fun fs hex hpq => ⟨?_, key fs hex⟩⟩
  unfold load_base_data
  rw [if_neg (not_not_intro hpq)]

/-- Witness for C10: a file system holding only the parquet cache. -/
theorem excel_required_despite_cache_witness :
    BASE_EXCEL ∉ [BASE_PARQUET] ∧
      (load_base_data [BASE_PARQUET] = .ok .fromCache ∧
        ∃ msg, program_startup [BASE_PARQUET] = .error msg) :=
  ⟨by decide, excel_required_despite_cache.2 [BASE_PARQUET] (by decide) (by decide)⟩

/-- C3: a synthesis request whose village count is not a positive multiple of
28 inside the configured inclusive range `[28, 280]` is rejected with the
invalid-village-count error before anything happens: the returned state is the
input state unchanged — no row written, no table created, no ledger entry. -/
theorem invalid_village_count_rejected (num : Int)
    (username db_id created_at : String) (writeOk : Bool)
    (base : List BaseRecord) (st : SysState)
    (h : ¬ (MIN_VILLAGES ≤ num ∧ num ≤ MAX_VILLAGES ∧ num % 28 = 0)) :
    generate_click num username db_id created_at writeOk base st =
      (.error .invalidVillageCount, st) := by
  unfold generate_click
  simp only [MIN_VILLAGES, MAX_VILLAGES] at h ⊢
  by_cases h1 : num < 28 ∨ 280 < num
  · rw [if_pos h1]
  · rw [if_neg h1, if_pos (by omega)]

/-- Witness for C3 at the spec's rejected input `village_count = 30`. -/
theorem invalid_village_count_rejected_witness :
    ¬ (MIN_VILLAGES ≤ (30 : Int) ∧ (30 : Int) ≤ MAX_VILLAGES ∧
        (30 : Int) % 28 = 0) ∧
      generate_click 30 "admin" "ab" "t" true [] ⟨[], []⟩ =
        (.error .invalidVillageCount, ⟨[], []⟩) :=
  ⟨by decide,
    invalid_village_count_rejected 30 "admin" "ab" "t" true [] ⟨[], []⟩ (by decide)⟩

/-- C8 counterexample: run synthesis (user `admin`, fresh id `ab`, 28
villages) from an empty initial state with the storage write failing.  The run
aborts with a storage error and writes no ledger entry, but the partially
created table file is NOT discarded: it remains in the final state, refuting
the claim that any partial output is discarded/removed. -/
theorem storage_failure_leaves_partial_file :
    (generate_database "admin" "ab" "t" false [] 28 ⟨[], []⟩).1 =
        .error .storageError ∧
      ¬ ((generate_database "admin" "ab" "t" false [] 28 ⟨[], []⟩).2.tables = []) := by
  constructor
  · rfl
  · intro hcontra
    simp [generate_database] at hcontra

/-- C8 amended: on a storage failure the synthesis run aborts with a storage
error and no generation-ledger entry is written (the ledger is unchanged), but
the partially created table file is not removed: it remains on disk with the
rolled-back (empty) table, merely unreferenced by any new ledger entry. -/
theorem storage_failure_aborts_without_ledger_entry
    (username db_id created_at : String) (base : List BaseRecord)
    (num_villages : Nat) (st : SysState) :
    (generate_database username db_id created_at false base num_villages st).1 =
        .error .storageError ∧
      (generate_database username db_id created_at false base num_villages st).2.ledger =
        st.ledger ∧
      ("villages_" ++ username ++ "_" ++ db_id ++ ".db", ([] : List PopRecord)) ∈
        (generate_database username db_id created_at false base num_villages st).2.tables := by
  unfold generate_database
  refine ⟨rfl, rfl, ?_⟩
  simp

/-- Peeling one village off the emitted rows: the rows for villages
`1 .. V + 1` are those for `1 .. V` followed by village `V + 1`'s block. -/
theorem emittedRows_succ (base : List BaseRecord) (V : Nat) :
    emittedRows base (V + 1) =
      emittedRows base V ++ base.enum.map (fun p => emitRow (V + 1) p.1 p.2) := by
  unfold emittedRows
  rw [List.range_succ, List.map_append, List.flatMap_append]
  simp

/-- The emitted rows number exactly `num_villages * |base|`. -/
theorem emittedRows_length (base : List BaseRecord) (V : Nat) :
    (emittedRows base V).length = V * base.length := by
  induction V with
  | zero => simp [emittedRows]
  | succ n ih =>
    rw [emittedRows_succ, List.length_append, ih, List.length_map,
      List.enum_length, Nat.succ_mul]

/-- Closed form of the emitted rows: the row at position
`(v - 1) * |base| + idx` is village `v`'s copy of base row `idx`. -/
theorem emittedRows_getElem? (base : List BaseRecord) (V v idx : Nat)
    (b : BaseRecord) (hv1 : 1 ≤ v) (hvV : v ≤ V) (hb : base[idx]? = some b) :
    (emittedRows base V)[(v - 1) * base.length + idx]? = some (emitRow v idx b) := by
  have hidx : idx < base.length := (List.getElem?_eq_some.mp hb).1
  induction V with
  | zero => omega
  | succ n ih =>
    rw [emittedRows_succ]
    by_cases hvn : v ≤ n
    · have hlen : (v - 1) * base.length + idx < (emittedRows base n).length := by
        rw [emittedRows_length]
        have h1 : v - 1 + 1 ≤ n := by omega
        calc (v - 1) * base.length + idx
            < (v - 1) * base.length + base.length := by omega
          _ = (v - 1 + 1) * base.length := (Nat.succ_mul _ _).symm
          _ ≤ n * base.length := Nat.mul_le_mul_right _ h1
      rw [List.getElem?_append_left hlen]
      exact ih hvn
    · have hv : v = n + 1 := by omega
      subst hv
      have hnn : n + 1 - 1 = n := rfl
      rw [hnn]
      have hge : (emittedRows base n).length ≤ n * base.length + idx := by
        rw [emittedRows_length]; omega
      rw [List.getElem?_append_right hge, emittedRows_length]
      have hsub : n * base.length + idx - n * base.length = idx := by omega
      rw [hsub, List.getElem?_map, List.getElem?_enum, hb]
      rfl

/-- Closed form of the final table: position `(v - 1) * |base| + idx` holds
village `v`'s copy of base row `idx`, with serial number one more than its
position. -/
theorem populationRows_getElem? (base : List BaseRecord) (V v idx : Nat)
    (b : BaseRecord) (hv1 : 1 ≤ v) (hvV : v ≤ V) (hb : base[idx]? = some b) :
    (populationRows base V)[(v - 1) * base.length + idx]? =
      some { emitRow v idx b with SERIAL_NO := (v - 1) * base.length + idx + 1 } := by
  unfold populationRows
  rw [List.getElem?_map, List.getElem?_enum,
    emittedRows_getElem? base V v idx b hv1 hvV hb]
  rfl

/-- The serial numbers are `1, 2, 3, …` in emission order. -/
theorem populationRows_serials (base : List BaseRecord) (V : Nat) :
    (populationRows base V).map (fun r => r.SERIAL_NO) =
      (List.range (V * base.length)).map (· + 1) := by
  unfold populationRows
  rw [List.map_map]
  have h : ((fun r : PopRecord => r.SERIAL_NO) ∘
      fun p : Nat × PopRecord => { p.2 with SERIAL_NO := p.1 + 1 }) =
      ((· + 1) ∘ Prod.fst) := rfl
  rw [h, ← List.map_map, List.enum_map_fst, emittedRows_length]

/-- C4: for every village count `V` and base dataset, synthesis produces
exactly `V * |base|` rows; their serial numbers are `1 .. V * |base|` assigned
in emission order; and the row at position `(v - 1) * |base| + idx` is village
`v`'s copy of base row `idx` — villages ascending, base order within each
village. -/
theorem synthesis_rows_serials_and_order (base : List BaseRecord) (V : Nat) :
    (populationRows base V).length = V * base.length ∧
    (populationRows base V).map (fun r => r.SERIAL_NO) =
      (List.range (V * base.length)).map (· + 1) ∧
    ∀ v idx b, 1 ≤ v → v ≤ V → base[idx]? = some b →
      (populationRows base V)[(v - 1) * base.length + idx]? =
        some { emitRow v idx b with
               SERIAL_NO := (v - 1) * base.length + idx + 1 } := by
  refine ⟨?_, populationRows_serials base V, fun v idx b hv1 hvV hb =>
    populationRows_getElem? base V v idx b hv1 hvV hb⟩
  unfold populationRows
  rw [List.length_map, List.enum_length, emittedRows_length]

/-- The Boolean gender condition agrees with the propositional parity rule. -/
theorem beq_parity_iff (idx v : Nat) :
    (((idx % 2 == 0) == (v % 2 == 1)) = true) ↔ ((idx % 2 = 0) ↔ (v % 2 = 1)) := by
  cases hi : (idx % 2 == 0) <;> cases hv2 : (v % 2 == 1) <;> simp_all

/-- Every emitted row's village id is between 1 and the village count. -/
theorem mem_emittedRows_village (base : List BaseRecord) (V : Nat) (r : PopRecord)
    (hr : r ∈ emittedRows base V) : 1 ≤ r.VILLAGE_ID ∧ r.VILLAGE_ID ≤ V := by
  unfold emittedRows at hr
  rw [List.mem_flatMap] at hr
  obtain ⟨vid, hvid, hrin⟩ := hr
  rw [List.mem_map] at hrin
  obtain ⟨p, _, rfl⟩ := hrin
  rw [List.mem_map] at hvid
  obtain ⟨u, hu, rfl⟩ := hvid
  rw [List.mem_range] at hu
  refine ⟨?_, ?_⟩ <;> (simp [emitRow]; try omega)

/-- Attaching serial numbers does not change counts of serial-insensitive
predicates. -/
theorem countP_populationRows (base : List BaseRecord) (V : Nat)
    (p : PopRecord → Bool) (hp : ∀ r n, p { r with SERIAL_NO := n } = p r) :
    (populationRows base V).countP p = (emittedRows base V).countP p := by
  unfold populationRows
  rw [List.countP_map]
  have h : (p ∘ fun q : Nat × PopRecord => { q.2 with SERIAL_NO := q.1 + 1 }) =
      (p ∘ Prod.snd) := funext fun q => hp q.2 (q.1 + 1)
  rw [h, ← List.countP_map, List.enum_map_snd]

/-- Counting rows that can only come from village `v`: only that village's
block contributes. -/
theorem countP_emittedRows_village (base : List BaseRecord) (V v : Nat)
    (p : PopRecord → Bool) (hp : ∀ r, p r = true → r.VILLAGE_ID = v)
    (hv1 : 1 ≤ v) (hvV : v ≤ V) :
    (emittedRows base V).countP p =
      (base.enum.map (fun q => emitRow v q.1 q.2)).countP p := by
  induction V with
  | zero => omega
  | succ n ih =>
    rw [emittedRows_succ, List.countP_append]
    by_cases hvn : v ≤ n
    · rw [ih hvn]
      have hz : (base.enum.map (fun q => emitRow (n + 1) q.1 q.2)).countP p = 0 := by
        rw [List.countP_eq_zero]
        intro a ha hpa
        rw [List.mem_map] at ha
        obtain ⟨q, _, rfl⟩ := ha
        have hvil := hp _ hpa
        simp [emitRow] at hvil
        omega
      omega
    · have hveq : v = n + 1 := by omega
      subst hveq
      have hz : (emittedRows base n).countP p = 0 := by
        rw [List.countP_eq_zero]
        intro a ha hpa
        have hrange := mem_emittedRows_village base n a ha
        have hvil := hp _ hpa
        omega
      omega

/-- In village `v`'s block, the MALE rows are the base rows whose 0-based
index satisfies the parity rule. -/
theorem countP_block_male (base : List BaseRecord) (v : Nat) :
    (base.enum.map (fun q => emitRow v q.1 q.2)).countP
        (fun r => r.VILLAGE_ID == v && r.GENDER == "MALE") =
      (List.range base.length).countP (fun i => (i % 2 == 0) == (v % 2 == 1)) := by
  rw [List.countP_map]
  have h : ((fun r : PopRecord => r.VILLAGE_ID == v && r.GENDER == "MALE") ∘
      fun q : Nat × BaseRecord => emitRow v q.1 q.2) =
      ((fun i => (i % 2 == 0) == (v % 2 == 1)) ∘ Prod.fst) := by
    funext q
    show ((emitRow v q.1 q.2).VILLAGE_ID == v &&
      (emitRow v q.1 q.2).GENDER == "MALE") = ((q.1 % 2 == 0) == (v % 2 == 1))
    simp only [emitRow]
    cases hc : ((q.1 % 2 == 0) == (v % 2 == 1)) <;> simp [hc]
  rw [h, ← List.countP_map, List.enum_map_fst]

/-- In village `v`'s block, the FEMALE rows are the base rows whose 0-based
index violates the parity rule. -/
theorem countP_block_female (base : List BaseRecord) (v : Nat) :
    (base.enum.map (fun q => emitRow v q.1 q.2)).countP
        (fun r => r.VILLAGE_ID == v && r.GENDER == "FEMALE") =
      (List.range base.length).countP
        (fun i => !((i % 2 == 0) == (v % 2 == 1))) := by
  rw [List.countP_map]
  have h : ((fun r : PopRecord => r.VILLAGE_ID == v && r.GENDER == "FEMALE") ∘
      fun q : Nat × BaseRecord => emitRow v q.1 q.2) =
      ((fun i => !((i % 2 == 0) == (v % 2 == 1))) ∘ Prod.fst) := by
    funext q
    show ((emitRow v q.1 q.2).VILLAGE_ID == v &&
      (emitRow v q.1 q.2).GENDER == "FEMALE") = !((q.1 % 2 == 0) == (v % 2 == 1))
    simp only [emitRow]
    cases hc : ((q.1 % 2 == 0) == (v % 2 == 1)) <;> simp [hc]
  rw [h, ← List.countP_map, List.enum_map_fst]

/-- Among `0 .. B - 1` there are `(B + 1) / 2` indices of even parity and
`B / 2` of odd parity, phrased through the Boolean gender condition. -/
theorem countP_range_parity (B : Nat) (t : Bool) :
    (List.range B).countP (fun i => (i % 2 == 0) == t) =
      if t then (B + 1) / 2 else B / 2 := by
  induction B with
  | zero => cases t <;> rfl
  | succ n ih =>
    rw [List.range_succ, List.countP_append, ih]
    rcases Nat.mod_two_eq_zero_or_one n with h | h <;> cases t <;>
      simp [List.countP_cons, h] <;> omega

/-- Complementary parity count. -/
theorem countP_range_parity_not (B : Nat) (t : Bool) :
    (List.range B).countP (fun i => !((i % 2 == 0) == t)) =
      if t then B / 2 else (B + 1) / 2 := by
  have h : (fun i : Nat => !((i % 2 == 0) == t)) =
      (fun i : Nat => (i % 2 == 0) == !t) := by
    funext i
    cases hm : (i % 2 == 0) <;> cases t <;> rfl
  rw [h, countP_range_parity]
  cases t <;> rfl

/-- C5: the gender checkerboard.  The row for base index `idx` in village `v`
is MALE exactly when `(idx % 2 = 0) ↔ (v % 2 = 1)` and FEMALE otherwise;
consecutive rows of one village alternate gender; and each village's MALE and
FEMALE counts sum to the base size and differ by at most 1. -/
theorem gender_checkerboard (base : List BaseRecord) (V : Nat) :
    (∀ v idx b, 1 ≤ v → v ≤ V → base[idx]? = some b →
      ∃ r, (populationRows base V)[(v - 1) * base.length + idx]? = some r ∧
        (r.GENDER = "MALE" ↔ ((idx % 2 = 0) ↔ (v % 2 = 1))) ∧
        (r.GENDER = "MALE" ∨ r.GENDER = "FEMALE")) ∧
    (∀ v idx b b', 1 ≤ v → v ≤ V →
      base[idx]? = some b → base[idx + 1]? = some b' →
      ∀ r r', (populationRows base V)[(v - 1) * base.length + idx]? = some r →
        (populationRows base V)[(v - 1) * base.length + (idx + 1)]? = some r' →
        r.GENDER ≠ r'.GENDER) ∧
    (∀ v, 1 ≤ v → v ≤ V →
      (populationRows base V).countP
          (fun r => r.VILLAGE_ID == v && r.GENDER == "MALE") +
        (populationRows base V).countP
          (fun r => r.VILLAGE_ID == v && r.GENDER == "FEMALE") = base.length ∧
      (populationRows base V).countP
          (fun r => r.VILLAGE_ID == v && r.GENDER == "MALE") ≤
        (populationRows base V).countP
          (fun r => r.VILLAGE_ID == v && r.GENDER == "FEMALE") + 1 ∧
      (populationRows base V).countP
          (fun r => r.VILLAGE_ID == v && r.GENDER == "FEMALE") ≤
        (populationRows base V).countP
          (fun r => r.VILLAGE_ID == v && r.GENDER == "MALE") + 1) := by
  refine ⟨?_, ?_, ?_⟩
  · intro v idx b hv1 hvV hb
    refine ⟨_, populationRows_getElem? base V v idx b hv1 hvV hb, ?_, ?_⟩
    · have hg : ({ emitRow v idx b with
          SERIAL_NO := (v - 1) * base.length + idx + 1 }).GENDER =
          (if ((idx % 2 == 0) == (v % 2 == 1)) then "MALE" else "FEMALE") := rfl
      rw [hg, ← beq_parity_iff idx v]
      cases hc : ((idx % 2 == 0) == (v % 2 == 1)) <;> simp [hc]
    · have hg : ({ emitRow v idx b with
          SERIAL_NO := (v - 1) * base.length + idx + 1 }).GENDER =
          (if ((idx % 2 == 0) == (v % 2 == 1)) then "MALE" else "FEMALE") := rfl
      rw [hg]
      cases hc : ((idx % 2 == 0) == (v % 2 == 1)) <;> simp
  · intro v idx b b' hv1 hvV hb hb' r r' hr hr'
    rw [populationRows_getElem? base V v idx b hv1 hvV hb] at hr
    rw [populationRows_getElem? base V v (idx + 1) b' hv1 hvV hb'] at hr'
    have hr2 := Option.some.inj hr
    have hr2' := Option.some.inj hr'
    subst hr2 hr2'
    show (emitRow v idx b).GENDER ≠ (emitRow v (idx + 1) b').GENDER
    simp only [emitRow]
    rcases Nat.mod_two_eq_zero_or_one idx with h | h
    · have h' : (idx + 1) % 2 = 1 := by omega
      cases ht : (v % 2 == 1) <;> simp [h, h', ht]
    · have h' : (idx + 1) % 2 = 0 := by omega
      cases ht : (v % 2 == 1) <;> simp [h, h', ht]
  · intro v hv1 hvV
    have hp : ∀ g : String, ∀ (r : PopRecord) (n : Nat),
        (fun r : PopRecord => r.VILLAGE_ID == v && r.GENDER == g)
            { r with SERIAL_NO := n } =
          (fun r : PopRecord => r.VILLAGE_ID == v && r.GENDER == g) r :=
      fun _ _ _ => rfl
    have hvil : ∀ g : String, ∀ r : PopRecord,
        (fun r : PopRecord => r.VILLAGE_ID == v && r.GENDER == g) r = true →
          r.VILLAGE_ID = v := by
      intro g r hr
      simp only [Bool.and_eq_true, beq_iff_eq] at hr
      exact hr.1
    have hm : (populationRows base V).countP
        (fun r => r.VILLAGE_ID == v && r.GENDER == "MALE") =
        (if (v % 2 == 1) then (base.length + 1) / 2 else base.length / 2) := by
      rw [countP_populationRows base V _ (hp "MALE"),
        countP_emittedRows_village base V v _ (hvil "MALE") hv1 hvV,
        countP_block_male, countP_range_parity]
    have hf : (populationRows base V).countP
        (fun r => r.VILLAGE_ID == v && r.GENDER == "FEMALE") =
        (if (v % 2 == 1) then base.length / 2 else (base.length + 1) / 2) := by
      rw [countP_populationRows base V _ (hp "FEMALE"),
        countP_emittedRows_village base V v _ (hvil "FEMALE") hv1 hvV,
        countP_block_female, countP_range_parity_not]
    rw [hm, hf]
    cases ht : (v % 2 == 1) <;> simp <;> omega

/-- Witness for C5 with the two-row demo base, `V = 1`, village 1. -/
theorem gender_checkerboard_witness :
    (1 : Nat) ≤ 1 ∧
      ((populationRows demoBase 1).countP
          (fun r => r.VILLAGE_ID == 1 && r.GENDER == "MALE") +
        (populationRows demoBase 1).countP
          (fun r => r.VILLAGE_ID == 1 && r.GENDER == "FEMALE") = demoBase.length ∧
      (populationRows demoBase 1).countP
          (fun r => r.VILLAGE_ID == 1 && r.GENDER == "MALE") ≤
        (populationRows demoBase 1).countP
          (fun r => r.VILLAGE_ID == 1 && r.GENDER == "FEMALE") + 1 ∧
      (populationRows demoBase 1).countP
          (fun r => r.VILLAGE_ID == 1 && r.GENDER == "FEMALE") ≤
        (populationRows demoBase 1).countP
          (fun r => r.VILLAGE_ID == 1 && r.GENDER == "MALE") + 1) :=
  ⟨by decide, (gender_checkerboard demoBase 1).2.2 1 (by decide) (by decide)⟩

/-- Witness for C4 with the two-row demo base, `V = 2`, village 2, row 1. -/
theorem synthesis_rows_serials_and_order_witness :
    demoBase[1]? = some
      { COUNTER := 2, FAMILY_ID := 10, PERSON_ID := 101,
        BIRTH_DATE_SERIAL := none, Date_of_Birth := none } ∧
    (populationRows demoBase 2)[(2 - 1) * demoBase.length + 1]? =
      some { emitRow 2 1
              { COUNTER := 2, FAMILY_ID := 10, PERSON_ID := 101,
                BIRTH_DATE_SERIAL := none, Date_of_Birth := none } with
             SERIAL_NO := (2 - 1) * demoBase.length + 1 + 1 } :=
  ⟨rfl, (synthesis_rows_serials_and_order demoBase 2).2.2 2 1 _
    (by decide) (by decide) rfl⟩
